import Mathlib

/-!
# Verification of the TIFORT-CORE Valuation & Compliance Engine

Shallow embedding of the deterministic valuation and compliance pipeline of
the repository (the valuation module of `src/lib/google-sheets.ts` and the
legal-compliance module `src/unnamed/part_002`, over the type definitions of
`src/unnamed/part_000`).

Modelling conventions:
* JavaScript numbers are modelled as `ℚ` (all engine arithmetic is `+`, `*`,
  `/`, comparisons); the Haversine distance and the infrastructure-proximity
  scorer, which use trigonometric functions, are modelled over `ℝ` in a
  separate section.
* Optional (possibly `undefined`/`null`) fields are `Option _`.  JavaScript
  truthiness tests (`x || d`, `if (!x)`) on numbers treat `0` like absence and
  on strings treat `""` like absence; the helpers `truthyNum`, `numOr`,
  `truthyStr`, `strOr` reproduce this.
* `Math.round` rounds half toward `+∞`: `jsRound q = ⌊q + 1/2⌋`.
* Calendar instants (`Date`) are abstract integer timestamps `ℤ`; the
  calendar-based "+5 years" of `setFullYear` is abstracted as a fixed positive
  shift `fiveYears` (no theorem below depends on its value).
* Functions of the source that read the ambient clock (`new Date()`,
  `Date.now()`) take the clock instant as an explicit leading argument `now`.
* Display-only string fields (descriptions, recommendations, ids, titles) and
  property fields never read by the engine are omitted from the records.
-/

namespace Tifort

/-- JS truthiness of an optional number: present and nonzero. -/
def truthyNum (x : Option ℚ) : Bool :=
  match x with
  | none => false
  | some v => v ≠ 0

/-- `x || d` for an optional number `x` and default `d`. -/
def numOr (x : Option ℚ) (d : ℚ) : ℚ :=
  if truthyNum x then x.getD 0 else d

/-- JS truthiness of an optional string: present and nonempty. -/
def truthyStr (x : Option String) : Bool :=
  match x with
  | none => false
  | some s => s ≠ ""

/-- `x || d` for an optional string `x` and default `d`. -/
def strOr (x : Option String) (d : String) : String :=
  if truthyStr x then x.getD "" else d

/-- `Math.round`: round half toward positive infinity. -/
def jsRound (q : ℚ) : ℤ := ⌊q + 1/2⌋

/-- `AssetType` of the type-definitions module. -/
inductive AssetType
  | Apartment
  | Villa
  | Land
  deriving DecidableEq, Repr

/-- `RiskGrade` letters, `A` best. -/
inductive RiskGrade
  | A
  | B
  | C
  | D
  | E
  | F
  deriving DecidableEq, Repr

/-- `ComplianceStatus` of the type-definitions module. -/
inductive ComplianceStatus
  | compliant
  | non_compliant
  | pending_review
  | expired
  deriving DecidableEq, Repr

/-- The seven canonical `DocumentType` values. -/
inductive DocumentType
  | certificat_propriete
  | note_renseignement
  | quitus_fiscal
  | plan_cadastral
  | certificat_conformite
  | vna
  | tnb_tax
  deriving DecidableEq, Repr

/-- `StructuralHealthScore`: `seismic_chaining` is `boolean | null` (tri-state),
the numeric sub-scores are nullable. -/
structure StructuralHealthScore where
  seismic_chaining : Option Bool
  rps_2011_compliant : Bool
  rps_2026_compliant : Bool
  humidity_score : Option ℚ
  foundation_depth_m : Option ℚ
  roof_life_years : Option ℚ
  overall_score : Option ℚ
  deriving DecidableEq, Repr

/-- The engine-relevant fields of `Property` (valuation-module shape: optional
sizes/prices, tri-state structural data, compliance flag booleans). -/
structure Property where
  asset_type : AssetType
  neighborhood : Option String
  gps_latitude : ℚ
  gps_longitude : ℚ
  terrain_size_m2 : Option ℚ
  built_size_m2 : Option ℚ
  year_built : Option ℚ
  market_price : Option ℚ
  zoning_code : Option String
  structural_health_score : StructuralHealthScore
  distance_tgv_station : Option ℚ
  distance_grand_stade : Option ℚ
  distance_airport : Option ℚ
  bill_34_21_flagged : Bool
  vna_required : Bool
  tax_gate_passed : Bool
  is_verified : Bool
  deriving DecidableEq, Repr

/-- One valuation adjustment (the display-only `description` string is
omitted). -/
structure ValuationAdjustment where
  factor : String
  impact_percent : ℚ
  impact_value : ℚ
  deriving DecidableEq, Repr

/-- Per-zoning-code CES/COS coefficients, table `ZONING_MULTIPLIERS`.
The lookup is string-keyed in the source (`Record<string, …>`), so it is
partial: unrecognized codes return `none`. -/
def ZONING_MULTIPLIERS (code : String) : Option (ℚ × ℚ × ℕ) :=
  if code = "SD1" then some (7/100, 5/100, 1)
  else if code = "GH2" then some (40/100, 35/100, 15)
  else if code = "SA1" then some (60/100, 50/100, 25)
  else if code = "S1" then some (50/100, 40/100, 20)
  else if code = "ZI" then some (70/100, 60/100, 1)
  else if code = "ZA" then some (2/100, 1/100, 1)
  else none

/-- Neighborhood baseline price-per-m² tiers, table `NEIGHBORHOOD_TIERS`. -/
def NEIGHBORHOOD_TIERS (n : String) : Option ℚ :=
  if n = "hivernage" then some 25000
  else if n = "gueliz" then some 22000
  else if n = "mellah" then some 18000
  else if n = "palmeraie" then some 30000
  else if n = "medina" then some 15000
  else if n = "targa" then some 12000
  else if n = "default" then some 10000
  else none

/-- `property.neighborhood?.toLowerCase() || 'default'` followed by the tier
lookup with fallback `NEIGHBORHOOD_TIERS.default` (10000). -/
def neighborhoodPricePerM2 (n : Option String) : ℚ :=
  let key := strOr (n.map String.toLower) "default"
  numOr (NEIGHBORHOOD_TIERS key) 10000

/-- `estimateBaseValue`: neighborhood-tier price times
`built_size_m2 || terrain_size_m2 || 100`. -/
def estimateBaseValue (p : Property) : ℚ :=
  let pricePerM2 := neighborhoodPricePerM2 p.neighborhood
  let size := numOr p.built_size_m2 (numOr p.terrain_size_m2 100)
  size * pricePerM2

/-- `calculateSeismicPenalty`: not applicable to land; pre-2023 building whose
`seismic_chaining` is not `true` (i.e. `false` or unknown) gets −15%; otherwise
an RPS-2026-compliant building gets +3%. -/
def calculateSeismicPenalty (p : Property) : ValuationAdjustment :=
  let baseValue := numOr p.market_price 0
  if p.asset_type = AssetType.Land then
    { factor := "seismic_compliance", impact_percent := 0, impact_value := 0 }
  else if truthyNum p.year_built ∧ p.year_built.getD 0 < 2023 ∧
      p.structural_health_score.seismic_chaining ≠ some true then
    { factor := "seismic_compliance", impact_percent := -15
      impact_value := baseValue * (-15/100) }
  else if p.structural_health_score.rps_2026_compliant then
    { factor := "seismic_compliance", impact_percent := 3
      impact_value := baseValue * (3/100) }
  else
    { factor := "seismic_compliance", impact_percent := 0, impact_value := 0 }

/-- `calculateStructuralAdjustments`: humidity (> 7 → −8%), roof life
(< 5 years → −5%), foundation depth (< 1.5 m → −6%); empty for land. -/
def calculateStructuralAdjustments (p : Property) : List ValuationAdjustment :=
  let baseValue := numOr p.market_price 0
  let shs := p.structural_health_score
  if p.asset_type = AssetType.Land then []
  else
    (if shs.humidity_score ≠ none ∧ shs.humidity_score.getD 0 > 7 then
      [{ factor := "humidity", impact_percent := -8
         impact_value := baseValue * (-8/100) }]
    else []) ++
    (if shs.roof_life_years ≠ none ∧ shs.roof_life_years.getD 0 < 5 then
      [{ factor := "roof_condition", impact_percent := -5
         impact_value := baseValue * (-5/100) }]
    else []) ++
    (if shs.foundation_depth_m ≠ none ∧ shs.foundation_depth_m.getD 0 < 3/2 then
      [{ factor := "foundation", impact_percent := -6
         impact_value := baseValue * (-6/100) }]
    else [])

/-- `calculateComplianceAdjustments`: Bill 34.21 flag → −20%; failed tax gate →
−10%; VNA requirement → displayed −5% but absolute impact
`−(200000 + 2% of base)`. -/
def calculateComplianceAdjustments (p : Property) : List ValuationAdjustment :=
  let baseValue := numOr p.market_price 0
  (if p.bill_34_21_flagged then
    [{ factor := "bill_34_21", impact_percent := -20
       impact_value := baseValue * (-20/100) }]
  else []) ++
  (if ¬p.tax_gate_passed then
    [{ factor := "tax_gate", impact_percent := -10
       impact_value := baseValue * (-10/100) }]
  else []) ++
  (if p.vna_required then
    [{ factor := "vna_requirement", impact_percent := -5
       impact_value := -(200000 + baseValue * (2/100)) }]
  else [])

/-- The engine-relevant fields of an `InfrastructurePoint`; `category` is
string-keyed in the weight lookup of the source. -/
structure InfrastructurePoint where
  name : String
  category : String
  gps_latitude : ℚ
  gps_longitude : ℚ
  impact_radius_km : Option ℚ
  value_multiplier : Option ℚ
  deriving DecidableEq, Repr

/-- Table `INFRASTRUCTURE_WEIGHTS` (string-keyed, partial). -/
def INFRASTRUCTURE_WEIGHTS (category : String) : Option ℚ :=
  if category = "tgv_station" then some (30/100)
  else if category = "stadium" then some (25/100)
  else if category = "highway" then some (15/100)
  else if category = "airport" then some (20/100)
  else if category = "industrial_zone" then some (10/100)
  else none

/-- `INFRASTRUCTURE_WEIGHTS[point.category] || 0.10` (all table weights are
nonzero, so `||` is plain defaulting). -/
def weightOf (category : String) : ℚ :=
  numOr (INFRASTRUCTURE_WEIGHTS category) (10/100)

/-- A point qualifies when `point.impact_radius_km` is truthy and the distance
from the property is within it.  `dist` is the distance oracle (the Haversine
function of the source; its trigonometric definition lives in the real-valued
section below, and every theorem over this rational layer holds for an
arbitrary oracle). -/
def infraQualifies (dist : ℚ → ℚ → ℚ → ℚ → ℚ) (p : Property)
    (pt : InfrastructurePoint) : Bool :=
  truthyNum pt.impact_radius_km &&
    decide (dist p.gps_latitude p.gps_longitude pt.gps_latitude pt.gps_longitude
      ≤ pt.impact_radius_km.getD 0)

/-- The per-point bonus `(multiplier − 1) × (1 − distance/radius) × weight`
(with `multiplier || 1.1`). -/
def infraPointBonus (dist : ℚ → ℚ → ℚ → ℚ → ℚ) (p : Property)
    (pt : InfrastructurePoint) : ℚ :=
  let distance := dist p.gps_latitude p.gps_longitude pt.gps_latitude
    pt.gps_longitude
  (numOr pt.value_multiplier (11/10) - 1) *
    (1 - distance / pt.impact_radius_km.getD 0) * weightOf pt.category

/-- The `totalBonus` accumulation loop of `calculateInfrastructureBonus`. -/
def infraTotalBonus (dist : ℚ → ℚ → ℚ → ℚ → ℚ) (p : Property)
    (points : List InfrastructurePoint) : ℚ :=
  points.foldl
    (fun acc pt =>
      acc + (if infraQualifies dist p pt then infraPointBonus dist p pt else 0))
    0

/-- `calculateInfrastructureBonus`: summed qualifying bonuses, percent rounded
to 2 decimals, absolute impact `base × totalBonus`. -/
def calculateInfrastructureBonus (dist : ℚ → ℚ → ℚ → ℚ → ℚ) (p : Property)
    (points : List InfrastructurePoint) : ValuationAdjustment :=
  let baseValue := numOr p.market_price 0
  let totalBonus := infraTotalBonus dist p points
  { factor := "infrastructure_proximity"
    impact_percent := (jsRound (totalBonus * 100 * 100) : ℚ) / 100
    impact_value := baseValue * totalBonus }

/-- `ZoningCodeInfo` reference record (the optional argument of
`calculateZoningPotential`; the source never reads it). -/
structure ZoningCodeInfo where
  code : String
  min_terrain_m2 : ℚ
  cos : ℚ
  ces : ℚ
  multi_unit_allowed : Bool
  max_units_per_hectare : Option ℚ
  deriving DecidableEq, Repr

/-- `calculateZoningPotential`: buildable area = terrain × COS; potential value
= round(buildable × neighborhood price-per-m² × 0.70); falls back to
`market_price || 0` when terrain or zoning code is missing/falsy or the code is
not in `ZONING_MULTIPLIERS`.  The `zoningInfo` argument is accepted but never
read, as in the source. -/
def calculateZoningPotential (p : Property)
    (zoningInfo : Option ZoningCodeInfo := none) : ℚ :=
  if ¬truthyNum p.terrain_size_m2 ∨ ¬truthyStr p.zoning_code then
    numOr p.market_price 0
  else
    match ZONING_MULTIPLIERS (p.zoning_code.getD "") with
    | none => numOr p.market_price 0
    | some zoning =>
      let maxBuildableArea := p.terrain_size_m2.getD 0 * zoning.1
      -- `maxUnits` is computed but unused in the source's value formula
      let maxUnits := min (zoning.2.2 : ℤ) ⌊maxBuildableArea / 80⌋
      let pricePerM2 := neighborhoodPricePerM2 p.neighborhood
      let developmentDiscount : ℚ := 70/100
      let potentialValue := maxBuildableArea * pricePerM2 * developmentDiscount
      (jsRound potentialValue : ℚ)

/-- `calculateResilienceScore` (apartments): base 50, stadium/TGV/airport
distance bonuses, Medina penalty, multi-unit zoning bonus, clamped to
`[0, 100]`.  The `infrastructurePoints` argument is accepted but never read,
as in the source. -/
def calculateResilienceScore (p : Property)
    (infrastructurePoints : Option (List InfrastructurePoint) := none) : ℚ :=
  let s0 : ℚ := 50
  let s1 := s0 +
    (if truthyNum p.distance_grand_stade ∧ p.distance_grand_stade.getD 0 < 5
      then 25
    else if truthyNum p.distance_grand_stade ∧ p.distance_grand_stade.getD 0 < 10
      then 15
    else 0)
  let s2 := s1 +
    (if truthyNum p.distance_tgv_station ∧ p.distance_tgv_station.getD 0 < 3
      then 15 else 0)
  let s3 := s2 +
    (if truthyNum p.distance_airport ∧ p.distance_airport.getD 0 < 8
      then 10 else 0)
  let s4 := s3 -
    (if (p.neighborhood.map String.toLower) = some "medina" then 10 else 0)
  let s5 := s4 +
    (if p.zoning_code = some "GH2" ∨ p.zoning_code = some "SA1" then 10 else 0)
  min 100 (max 0 s5)

/-- The risk-score accumulator inside `calculateRiskGrade`: flat 30/20/10 for
the compliance flags, plus the absolute percent magnitudes of the negative
adjustments, minus 15 when verified. -/
def riskScore (p : Property) (adjustments : List ValuationAdjustment) : ℚ :=
  (if p.bill_34_21_flagged then 30 else 0)
  + (if ¬p.tax_gate_passed then 20 else 0)
  + (if p.vna_required then 10 else 0)
  + ((adjustments.filter (fun a => a.impact_percent < 0)).map
      (fun a => |a.impact_percent|)).sum
  - (if p.is_verified then 15 else 0)

/-- The score-to-grade thresholds of `calculateRiskGrade`. -/
def gradeOfScore (s : ℚ) : RiskGrade :=
  if s ≤ 10 then .A
  else if s ≤ 20 then .B
  else if s ≤ 35 then .C
  else if s ≤ 50 then .D
  else if s ≤ 70 then .E
  else .F

/-- `calculateRiskGrade` = thresholds applied to the accumulated risk score. -/
def calculateRiskGrade (p : Property)
    (adjustments : List ValuationAdjustment) : RiskGrade :=
  gradeOfScore (riskScore p adjustments)

/-- `calculateConfidenceScore`: base 40, +15 market price, +15 structural
overall score, +20 verified, +5 each for TGV/stadium distance presence,
capped at 100. -/
def calculateConfidenceScore (p : Property) : ℚ :=
  let s := (40 : ℚ)
    + (if truthyNum p.market_price then 15 else 0)
    + (if p.structural_health_score.overall_score ≠ none then 15 else 0)
    + (if p.is_verified then 20 else 0)
    + (if p.distance_tgv_station ≠ none then 5 else 0)
    + (if p.distance_grand_stade ≠ none then 5 else 0)
  min 100 s

/-- `ValuationResult` (output record of the orchestrator). -/
structure ValuationResult where
  base_value : ℚ
  forensic_value : ℚ
  adjustments : List ValuationAdjustment
  zoning_potential_value : Option ℚ
  alpha_value : ℚ
  alpha_percent : ℚ
  risk_grade : RiskGrade
  confidence_score : ℚ
  resilience_score : Option ℚ
  deriving DecidableEq, Repr

/-- The adjustment list assembled by `calculateFairMarketValue`: seismic (when
nonzero), structural, compliance, then the infrastructure bonus (when points
are supplied, nonempty, and the bonus percent is nonzero). -/
def fmvAdjustments (dist : ℚ → ℚ → ℚ → ℚ → ℚ) (p : Property)
    (infrastructurePoints : Option (List InfrastructurePoint)) :
    List ValuationAdjustment :=
  let seismicAdjustment := calculateSeismicPenalty p
  (if seismicAdjustment.impact_percent ≠ 0 then [seismicAdjustment] else [])
  ++ calculateStructuralAdjustments p
  ++ calculateComplianceAdjustments p
  ++ (match infrastructurePoints with
      | none => []
      | some pts =>
        if pts.length > 0 then
          let infraAdjustment := calculateInfrastructureBonus dist p pts
          if infraAdjustment.impact_percent ≠ 0 then [infraAdjustment] else []
        else [])

/-- `calculateFairMarketValue`, the valuation orchestrator.  The sequential
`forensicValue += adjustment.impact_value` loop of the source is the sum of the
assembled adjustments' impact values added to the base. -/
def calculateFairMarketValue (dist : ℚ → ℚ → ℚ → ℚ → ℚ) (p : Property)
    (zoningInfo : Option ZoningCodeInfo := none)
    (infrastructurePoints : Option (List InfrastructurePoint) := none) :
    ValuationResult :=
  let baseValue := numOr p.market_price (estimateBaseValue p)
  let adjustments := fmvAdjustments dist p infrastructurePoints
  let forensicValue := baseValue + (adjustments.map (·.impact_value)).sum
  let zoningTriple :=
    if p.asset_type = AssetType.Land ∧ truthyStr p.zoning_code ∧
        truthyNum p.terrain_size_m2 then
      let zoningPotentialValue := calculateZoningPotential p zoningInfo
      let denom := numOr p.market_price forensicValue
      let alphaValue := zoningPotentialValue - denom
      (some zoningPotentialValue, alphaValue, alphaValue / denom * 100)
    else (none, 0, 0)
  let resilienceScore :=
    if p.asset_type = AssetType.Apartment then
      some (calculateResilienceScore p infrastructurePoints)
    else none
  { base_value := baseValue
    forensic_value := max forensicValue 0
    adjustments := adjustments
    zoning_potential_value := zoningTriple.1
    alpha_value := zoningTriple.2.1
    alpha_percent := (jsRound (zoningTriple.2.2 * 100) : ℚ) / 100
    risk_grade := calculateRiskGrade p adjustments
    confidence_score := calculateConfidenceScore p
    resilience_score := resilienceScore }

/-- One entry of the alpha-finder output: the property enriched with the
computed alpha value and percent. -/
structure AlphaOpportunity where
  property : Property
  alpha_value : ℚ
  alpha_percent : ℚ
  deriving DecidableEq, Repr

/-- The filter of `findAlphaOpportunities`: Land with truthy zoning code and
truthy market price. -/
def alphaEligible (p : Property) : Bool :=
  p.asset_type = AssetType.Land && truthyStr p.zoning_code &&
    truthyNum p.market_price

/-- The map step of `findAlphaOpportunities`: zoning potential minus market
price, as value and percent. -/
def alphaEnrich (p : Property) : AlphaOpportunity :=
  let potentialValue := calculateZoningPotential p
  let alphaValue := potentialValue - numOr p.market_price 0
  { property := p
    alpha_value := alphaValue
    alpha_percent := alphaValue / numOr p.market_price 1 * 100 }

/-- `findAlphaOpportunities`: filter to eligible properties, enrich, retain
alpha percent ≥ threshold (default 20), sort descending by alpha percent (the
source's comparator `b.alpha_percent - a.alpha_percent`). -/
def findAlphaOpportunities (properties : List Property)
    (minAlphaPercent : ℚ := 20) : List AlphaOpportunity :=
  (((properties.filter alphaEligible).map alphaEnrich).filter
      (fun q => minAlphaPercent ≤ q.alpha_percent)).mergeSort
    (fun a b => b.alpha_percent ≤ a.alpha_percent)

-- ============================================
-- Legal compliance validation layer (`src/unnamed/part_002`)
-- ============================================

/-- Flag severity levels. -/
inductive Severity
  | critical
  | warning
  | info
  deriving DecidableEq, Repr

/-- One compliance flag (display-only `title`/`description` strings
omitted). -/
structure ComplianceFlag where
  code : String
  severity : Severity
  impact_percent : Option ℚ
  deriving DecidableEq, Repr

/-- One forensic document, engine-relevant fields.  `expiry_date` is the
parsed timestamp of the optional expiry string (`none` for absent, empty or
unparsable). -/
structure ForensicDocument where
  document_type : DocumentType
  qr_code_verified : Bool
  is_verified : Bool
  expiry_date : Option ℤ
  deriving DecidableEq, Repr

/-- `Bill3421Check` result record. -/
structure Bill3421Check where
  applicable : Bool
  purchase_date : Option ℤ
  deadline_date : Option ℤ
  construction_started : Bool
  is_flagged : Bool
  deriving DecidableEq, Repr

/-- The calendar shift `deadline.setFullYear(deadline.getFullYear() + 5)`,
abstracted as a fixed positive offset in abstract time units; no theorem
below depends on its value. -/
def addFiveYears (t : ℤ) : ℤ := t + 157766400000

/-- `validateBill3421`: applicable only to Land; when a purchase date is
given, the deadline is purchase + 5 years and the check is flagged when the
current instant `now` is past the deadline. -/
def validateBill3421 (now : ℤ) (p : Property) (purchaseDate : Option ℤ) :
    Bill3421Check :=
  if p.asset_type ≠ AssetType.Land then
    { applicable := false, purchase_date := none, deadline_date := none
      construction_started := false, is_flagged := false }
  else
    match purchaseDate with
    | none =>
      { applicable := true, purchase_date := none, deadline_date := none
        construction_started := false, is_flagged := false }
    | some purchase =>
      let deadline := addFiveYears purchase
      { applicable := true, purchase_date := some purchase
        deadline_date := some deadline, construction_started := false
        is_flagged := deadline < now }

/-- `VNACheck` result record. -/
structure VNACheck where
  required : Bool
  buyer_nationality : Option String
  property_is_rural : Bool
  estimated_delay_months : ℚ
  estimated_cost_mad : ℚ
  deriving DecidableEq, Repr

/-- `VNAValidationParams`. -/
structure VNAValidationParams where
  buyerNationality : String
  propertyIsRural : Bool
  propertyZoning : Option String
  deriving DecidableEq, Repr

/-- `VNA_EXEMPT_NATIONALITIES`. -/
def VNA_EXEMPT_NATIONALITIES : List String := ["MA"]

/-- `validateVNA`: exempt nationalities never require VNA; otherwise rural
land requires it, and agricultural zoning (`ZA`) requires it with escalated
delay (18 months) and cost (250000). -/
def validateVNA (params : VNAValidationParams) : VNACheck :=
  if params.buyerNationality ∈ VNA_EXEMPT_NATIONALITIES then
    { required := false, buyer_nationality := some params.buyerNationality
      property_is_rural := params.propertyIsRural
      estimated_delay_months := 12, estimated_cost_mad := 200000 }
  else if params.propertyZoning = some "ZA" then
    { required := true, buyer_nationality := some params.buyerNationality
      property_is_rural := params.propertyIsRural
      estimated_delay_months := 18, estimated_cost_mad := 250000 }
  else
    { required := params.propertyIsRural
      buyer_nationality := some params.buyerNationality
      property_is_rural := params.propertyIsRural
      estimated_delay_months := 12, estimated_cost_mad := 200000 }

/-- `TaxGateCheck` result record. -/
structure TaxGateCheck where
  quitus_fiscal_present : Bool
  qr_verified : Bool
  is_high_risk : Bool
  deriving DecidableEq, Repr

/-- `validateTaxGate`: high-risk by default, cleared only by a quitus fiscal
document whose QR code is verified. -/
def validateTaxGate (documents : List ForensicDocument) : TaxGateCheck :=
  let quitusFiscal :=
    documents.find? (fun d => d.document_type = DocumentType.quitus_fiscal)
  let present := quitusFiscal.isSome
  let qr := (quitusFiscal.map (·.qr_code_verified)).getD false
  { quitus_fiscal_present := present, qr_verified := qr
    is_high_risk := ¬(present ∧ qr) }

/-- `SeismicCheck` result record. -/
structure SeismicCheck where
  year_built : Option ℚ
  pre_2023 : Bool
  seismic_chaining_present : Option Bool
  rps_2011_compliant : Bool
  rps_2026_compliant : Bool
  value_penalty_percent : ℚ
  deriving DecidableEq, Repr

/-- `validateSeismic`: pre-2023 flag from a truthy year; no penalty for land;
15% when pre-2023 with chaining explicitly `false`.  The source's second
branch (8% when chaining `=== null`) can never fire because the field was
null-coalesced to `undefined` one line earlier, so it is omitted here. -/
def validateSeismic (p : Property) : SeismicCheck :=
  let yearBuilt := p.year_built
  let shs := p.structural_health_score
  let pre2023 : Bool :=
    if truthyNum yearBuilt then decide (yearBuilt.getD 0 < 2023) else false
  let chaining := shs.seismic_chaining
  let base : SeismicCheck :=
    { year_built := yearBuilt, pre_2023 := pre2023
      seismic_chaining_present := chaining
      rps_2011_compliant := shs.rps_2011_compliant
      rps_2026_compliant := shs.rps_2026_compliant
      value_penalty_percent := 0 }
  if p.asset_type = AssetType.Land then base
  else if pre2023 ∧ chaining = some false then
    { base with value_penalty_percent := 15 }
  else base

/-- Transaction parameters of `performComplianceAudit`. -/
structure AuditParams where
  purchaseDate : Option ℤ := none
  buyerNationality : Option String := none
  deriving DecidableEq, Repr

/-- `ComplianceResult` (recommendation strings omitted). -/
structure ComplianceResult where
  overall_status : ComplianceStatus
  bill_34_21 : Bill3421Check
  vna : VNACheck
  tax_gate : TaxGateCheck
  seismic : SeismicCheck
  flags : List ComplianceFlag
  deriving DecidableEq, Repr

/-- A document counts as expired when it has an expiry date earlier than the
current instant. -/
def docExpired (now : ℤ) (d : ForensicDocument) : Bool :=
  match d.expiry_date with
  | none => false
  | some e => e < now

/-- The flag list assembled by `performComplianceAudit` before the
document-expiry pass: Bill 34.21 (critical, −20), VNA (warning, −5), tax gate
(critical −10 without quitus, warning −5 with unverified quitus), seismic
(critical at ≥ 15%, warning below). -/
def auditFlagsPre (now : ℤ) (p : Property) (documents : List ForensicDocument)
    (params : Option AuditParams) : List ComplianceFlag :=
  let bill3421 := validateBill3421 now p (params.bind (·.purchaseDate))
  let vna := validateVNA
    { buyerNationality := strOr (params.bind (·.buyerNationality)) "UNKNOWN"
      propertyIsRural := p.zoning_code = some "ZA"
      propertyZoning := p.zoning_code }
  let taxGate := validateTaxGate documents
  let seismic := validateSeismic p
  (if bill3421.is_flagged then
    [{ code := "BILL_34_21_EXCEEDED", severity := Severity.critical
       impact_percent := some (-20) }]
  else []) ++
  (if vna.required then
    [{ code := "VNA_REQUIRED", severity := Severity.warning
       impact_percent := some (-5) }]
  else []) ++
  (if taxGate.is_high_risk then
    (if ¬taxGate.quitus_fiscal_present then
      [{ code := "TAX_GATE_NO_QUITUS", severity := Severity.critical
         impact_percent := some (-10) }]
    else if ¬taxGate.qr_verified then
      [{ code := "TAX_GATE_NO_QR", severity := Severity.warning
         impact_percent := some (-5) }]
    else [])
  else []) ++
  (if seismic.value_penalty_percent > 0 then
    [{ code := "SEISMIC_NON_COMPLIANT"
       severity := if seismic.value_penalty_percent ≥ 15 then Severity.critical
         else Severity.warning
       impact_percent := some (-seismic.value_penalty_percent) }]
  else [])

/-- `performComplianceAudit`: runs the four checks, derives a provisional
status from critical/warning flags, then the document-expiry pass overrides
the status to `expired` and appends a critical flag. -/
def performComplianceAudit (now : ℤ) (p : Property)
    (documents : List ForensicDocument)
    (params : Option AuditParams := none) : ComplianceResult :=
  let bill3421 := validateBill3421 now p (params.bind (·.purchaseDate))
  let vna := validateVNA
    { buyerNationality := strOr (params.bind (·.buyerNationality)) "UNKNOWN"
      propertyIsRural := p.zoning_code = some "ZA"
      propertyZoning := p.zoning_code }
  let taxGate := validateTaxGate documents
  let seismic := validateSeismic p
  let flags := auditFlagsPre now p documents params
  let criticalFlags := flags.filter (fun f => f.severity = Severity.critical)
  let warningFlags := flags.filter (fun f => f.severity = Severity.warning)
  let overallStatus :=
    if criticalFlags.length > 0 then ComplianceStatus.non_compliant
    else if warningFlags.length > 0 then ComplianceStatus.pending_review
    else ComplianceStatus.compliant
  let expiredDocs := documents.filter (docExpired now)
  { overall_status :=
      if expiredDocs.length > 0 then ComplianceStatus.expired
      else overallStatus
    bill_34_21 := bill3421, vna := vna, tax_gate := taxGate, seismic := seismic
    flags :=
      if expiredDocs.length > 0 then
        flags ++ [{ code := "DOCUMENTS_EXPIRED", severity := Severity.critical
                    impact_percent := none }]
      else flags }

-- ============================================
-- Real-valued layer: Haversine distance and the infrastructure scorer
-- ============================================

/-- `toRad`: degrees to radians. -/
noncomputable def toRad (deg : ℝ) : ℝ := deg * (Real.pi / 180)

/-- `Math.atan2 y x`. -/
noncomputable def atan2 (y x : ℝ) : ℝ :=
  if 0 < x then Real.arctan (y / x)
  else if x < 0 ∧ 0 ≤ y then Real.arctan (y / x) + Real.pi
  else if x < 0 ∧ y < 0 then Real.arctan (y / x) - Real.pi
  else if x = 0 ∧ 0 < y then Real.pi / 2
  else if x = 0 ∧ y < 0 then -(Real.pi / 2)
  else 0

/-- The `a` term of the Haversine formula in `calculateDistance`
(`sin²(dLat/2) + cos(lat1)·cos(lat2)·sin²(dLon/2)` in radians). -/
noncomputable def haversineA (lat1 lon1 lat2 lon2 : ℝ) : ℝ :=
  Real.sin (toRad (lat2 - lat1) / 2) * Real.sin (toRad (lat2 - lat1) / 2) +
    Real.cos (toRad lat1) * Real.cos (toRad lat2) *
      Real.sin (toRad (lon2 - lon1) / 2) * Real.sin (toRad (lon2 - lon1) / 2)

/-- `calculateDistance`: Haversine great-circle distance, Earth radius
6371 km. -/
noncomputable def calculateDistance (lat1 lon1 lat2 lon2 : ℝ) : ℝ :=
  6371 * (2 * atan2 (Real.sqrt (haversineA lat1 lon1 lat2 lon2))
    (Real.sqrt (1 - haversineA lat1 lon1 lat2 lon2)))

/-- `Math.round` over the reals. -/
noncomputable def jsRoundR (x : ℝ) : ℤ := ⌊x + 1/2⌋

/-- Real-valued valuation adjustment (for the infrastructure scorer, whose
distances are trigonometric). -/
structure ValuationAdjustmentR where
  factor : String
  impact_percent : ℝ
  impact_value : ℝ

/-- The Haversine distance from a property to an infrastructure point. -/
noncomputable def infraDistance (p : Property) (pt : InfrastructurePoint) : ℝ :=
  calculateDistance (p.gps_latitude : ℝ) (p.gps_longitude : ℝ)
    (pt.gps_latitude : ℝ) (pt.gps_longitude : ℝ)

/-- `point.impact_radius_km && distance <= point.impact_radius_km`. -/
noncomputable def infraQualifiesH (p : Property) (pt : InfrastructurePoint) :
    Bool :=
  truthyNum pt.impact_radius_km &&
    decide (infraDistance p pt ≤ ((pt.impact_radius_km.getD 0 : ℚ) : ℝ))

/-- `(multiplier − 1) × (1 − distance/radius) × categoryWeight` with
`multiplier || 1.1`. -/
noncomputable def infraPointBonusH (p : Property) (pt : InfrastructurePoint) :
    ℝ :=
  (((numOr pt.value_multiplier (11/10) : ℚ) : ℝ) - 1) *
    (1 - infraDistance p pt / ((pt.impact_radius_km.getD 0 : ℚ) : ℝ)) *
    ((weightOf pt.category : ℚ) : ℝ)

/-- The `totalBonus` accumulation loop over the Haversine distance. -/
noncomputable def infraTotalBonusH (p : Property)
    (points : List InfrastructurePoint) : ℝ :=
  points.foldl
    (fun acc pt =>
      acc + (if infraQualifiesH p pt then infraPointBonusH p pt else 0))
    0

/-- `calculateInfrastructureBonus` with the Haversine distance of the
source. -/
noncomputable def calculateInfrastructureBonusH (p : Property)
    (points : List InfrastructurePoint) : ValuationAdjustmentR :=
  let baseValue := numOr p.market_price 0
  let totalBonus := infraTotalBonusH p points
  { factor := "infrastructure_proximity"
    impact_percent := (jsRoundR (totalBonus * 100 * 100) : ℝ) / 100
    impact_value := (baseValue : ℝ) * totalBonus }

-- ============================================
-- Concrete fixtures used by witnesses and counterexamples
-- ============================================

/-- A structural-health record with everything unknown/false. -/
def emptySHS : StructuralHealthScore :=
  { seismic_chaining := none, rps_2011_compliant := false
    rps_2026_compliant := false, humidity_score := none
    foundation_depth_m := none, roof_life_years := none
    overall_score := none }

/-- A minimal villa fixture: no optional data, compliant flags. -/
def baseVilla : Property :=
  { asset_type := AssetType.Villa, neighborhood := none, gps_latitude := 0
    gps_longitude := 0, terrain_size_m2 := none, built_size_m2 := none
    year_built := none, market_price := none, zoning_code := none
    structural_health_score := emptySHS, distance_tgv_station := none
    distance_grand_stade := none, distance_airport := none
    bill_34_21_flagged := false, vna_required := false
    tax_gate_passed := true, is_verified := false }

/-- Villa of the seismic-gap scenario: built 2015, chaining explicitly
`false`, market price 1,000,000. -/
def seismicGapVilla : Property :=
  { baseVilla with
    year_built := some 2015, market_price := some 1000000
    structural_health_score := { emptySHS with seismic_chaining := some false } }

/-- Villa identical to `seismicGapVilla` but with *unknown* seismic
chaining. -/
def unknownChainingVilla : Property :=
  { baseVilla with
    year_built := some 2015, market_price := some 1000000
    structural_health_score := { emptySHS with seismic_chaining := none } }

/-- Property of the tax-gate scenario: tax gate failed, every other
flag/penalty off. -/
def taxGateProp : Property :=
  { baseVilla with market_price := some 1000000, tax_gate_passed := false }

/-- Land parcel of the zoning-potential scenario: 5,000 m², zoning `GH2`
(COS 0.40), unrecognized neighborhood (default tier 10,000). -/
def zoningLand : Property :=
  { baseVilla with
    asset_type := AssetType.Land, terrain_size_m2 := some 5000
    zoning_code := some "GH2", market_price := some 1000000 }

/-- Villa with a market price of 1,000,000 and everything else clean. -/
def marketVilla : Property :=
  { baseVilla with market_price := some 1000000 }

/-- Villa with VNA required (and a market price), everything else clean. -/
def vnaVilla : Property :=
  { baseVilla with market_price := some 1000000, vna_required := true }

/-- A QR-verified quitus fiscal with no expiry date. -/
def cleanQuitus : ForensicDocument :=
  { document_type := DocumentType.quitus_fiscal, qr_code_verified := true
    is_verified := true, expiry_date := none }

/-- A QR-verified quitus fiscal expiring at instant 100. -/
def expiringQuitus : ForensicDocument :=
  { document_type := DocumentType.quitus_fiscal, qr_code_verified := true
    is_verified := true, expiry_date := some 100 }

/-- A trivial distance oracle for instantiating oracle-parameterized
theorems. -/
def zeroDist : ℚ → ℚ → ℚ → ℚ → ℚ := fun _ _ _ _ => 0

/-- Infrastructure point of the bonus scenario: TGV station at the origin,
radius 5 km, multiplier 1.25. -/
def tgvAtOrigin : InfrastructurePoint :=
  { name := "TGV", category := "tgv_station", gps_latitude := 0
    gps_longitude := 0, impact_radius_km := some 5
    value_multiplier := some (5/4) }

-- ============================================
-- Helper lemmas
-- ============================================

lemma filter_length_pos_iff {α : Type} (f : α → Bool) (l : List α) :
    0 < (l.filter f).length ↔ l.any f = true := by
  simp [List.length_pos, Ne, List.filter_eq_nil_iff, List.any_eq_true]

lemma alphaEnrich_zoningLand_percent :
    (alphaEnrich zoningLand).alpha_percent = 1300 := by
  have hpot : calculateZoningPotential zoningLand = 14000000 := by
    simp +decide [calculateZoningPotential, zoningLand, baseVilla,
      ZONING_MULTIPLIERS, neighborhoodPricePerM2, NEIGHBORHOOD_TIERS, strOr,
      truthyStr, numOr, truthyNum, jsRound]
    norm_num [Int.floor_eq_iff]
  show (calculateZoningPotential zoningLand -
      numOr zoningLand.market_price 0) /
    numOr zoningLand.market_price 1 * 100 = 1300
  rw [hpot]
  norm_num [zoningLand, baseVilla, numOr, truthyNum, decide_eq_true_eq]

lemma toRad_neg_swap (x y : ℝ) : toRad (x - y) = -toRad (y - x) := by
  unfold toRad; ring

lemma haversineA_symm (lat1 lon1 lat2 lon2 : ℝ) :
    haversineA lat1 lon1 lat2 lon2 = haversineA lat2 lon2 lat1 lon1 := by
  unfold haversineA
  rw [toRad_neg_swap lat1 lat2, toRad_neg_swap lon1 lon2]
  simp only [neg_div, Real.sin_neg]
  ring

lemma haversineA_self (lat lon : ℝ) : haversineA lat lon lat lon = 0 := by
  have h0 : toRad 0 = 0 := by unfold toRad; ring
  simp [haversineA, sub_self, h0]

lemma calculateDistance_self_zero (lat lon : ℝ) :
    calculateDistance lat lon lat lon = 0 := by
  unfold calculateDistance
  rw [haversineA_self]
  norm_num [atan2, Real.arctan_zero]

-- ============================================
-- Claim theorems
-- ============================================

/-- C7: the Haversine distance (Earth radius 6371 km) is symmetric in its two
coordinate pairs, and the distance from a point to itself is 0. -/
theorem calculateDistance_symm_self :
    (∀ lat1 lon1 lat2 lon2 : ℝ,
      calculateDistance lat1 lon1 lat2 lon2 =
        calculateDistance lat2 lon2 lat1 lon1) ∧
    (∀ lat lon : ℝ, calculateDistance lat lon lat lon = 0) := by
  constructor
  · intro lat1 lon1 lat2 lon2
    unfold calculateDistance
    rw [haversineA_symm]
  · exact calculateDistance_self_zero

/-- C10: `calculateZoningPotential` does not depend on its optional
`zoningInfo` argument; the calculation reads only the hard-coded
`ZONING_MULTIPLIERS` and `NEIGHBORHOOD_TIERS` tables. -/
theorem zoningPotential_ignores_zoningInfo :
    ∀ (p : Property) (zi1 zi2 : Option ZoningCodeInfo),
      calculateZoningPotential p zi1 = calculateZoningPotential p zi2 :=
  fun _ _ _ => rfl

/-- C2 counterexample: a non-Land property built before 2023 whose seismic
chaining is *unknown* (`null`), not `false`, also receives the −15%
adjustment, so the claimed "exactly when … seismic_chaining = false" is false
on the code. -/
theorem seismicGap_unknownChaining_counterexample :
    (calculateSeismicPenalty unknownChainingVilla).impact_percent = -15 ∧
    unknownChainingVilla.structural_health_score.seismic_chaining ≠
      some false := by
  constructor
  · simp +decide [calculateSeismicPenalty, unknownChainingVilla, baseVilla,
      emptySHS]
  · decide

/-- C2 (amended): for every non-Land property the −15% "pre-code seismic gap"
adjustment fires exactly when the year built is present (truthy) and < 2023
and seismic chaining is *not `true`* (explicitly `false` or unknown); when
that rule does not fire and `rps_2026_compliant` holds, the +3% bonus is
emitted instead; and the Villa/2015/chaining-false/1,000,000 scenario yields
`{percent := −15, value := −150000}`. -/
theorem seismicGap_rule_amended :
    (∀ p : Property, p.asset_type ≠ AssetType.Land →
      (((calculateSeismicPenalty p).impact_percent = -15) ↔
        (truthyNum p.year_built = true ∧ p.year_built.getD 0 < 2023 ∧
          p.structural_health_score.seismic_chaining ≠ some true)) ∧
      (¬(truthyNum p.year_built = true ∧ p.year_built.getD 0 < 2023 ∧
          p.structural_health_score.seismic_chaining ≠ some true) →
        p.structural_health_score.rps_2026_compliant = true →
        calculateSeismicPenalty p =
          { factor := "seismic_compliance", impact_percent := 3
            impact_value := numOr p.market_price 0 * (3/100) })) ∧
    calculateSeismicPenalty seismicGapVilla =
      { factor := "seismic_compliance", impact_percent := -15
        impact_value := -150000 } := by
  constructor
  · intro p hp
    unfold calculateSeismicPenalty
    rw [if_neg hp]
    constructor
    · by_cases hgap : truthyNum p.year_built = true ∧
          p.year_built.getD 0 < 2023 ∧
          p.structural_health_score.seismic_chaining ≠ some true
      · rw [if_pos hgap]
        simp [hgap]
      · rw [if_neg hgap]
        by_cases hrps : p.structural_health_score.rps_2026_compliant
        · simp [hrps, hgap]
          norm_num
        · simp [hrps, hgap]
    · intro hgap hrps
      rw [if_neg hgap, if_pos hrps]
  · simp +decide [calculateSeismicPenalty, seismicGapVilla, baseVilla,
      emptySHS, numOr, truthyNum]
    norm_num

/-- C2 witness: the amended rule applied to the scenario villa. -/
theorem seismicGap_rule_amended_witness :
    (calculateSeismicPenalty seismicGapVilla).impact_percent = -15 :=
  ((seismicGap_rule_amended.1 seismicGapVilla (by decide)).1).mpr (by decide)

/-- C1 counterexample: for a property whose only active flaw is the failed
tax gate (no deadline flag, no VNA, not verified, no seismic/structural
penalties), the risk score inside `calculateFairMarketValue` is 30, not 20 —
the flat 20 for the failed tax gate stacks with the 10-point magnitude of the
tax-gate value adjustment — and the grade is `C`, not `B`. -/
theorem taxGate_riskScore_counterexample :
    riskScore taxGateProp (fmvAdjustments zeroDist taxGateProp none) = 30 ∧
    (calculateFairMarketValue zeroDist taxGateProp none none).risk_grade =
      RiskGrade.C ∧
    ¬(riskScore taxGateProp (fmvAdjustments zeroDist taxGateProp none) = 20 ∧
      (calculateFairMarketValue zeroDist taxGateProp none none).risk_grade =
        RiskGrade.B) := by
  have hadj : fmvAdjustments zeroDist taxGateProp none =
      [{ factor := "tax_gate", impact_percent := -10
         impact_value := (1000000 : ℚ) * (-10/100) }] := by
    simp +decide [fmvAdjustments, calculateSeismicPenalty,
      calculateStructuralAdjustments, calculateComplianceAdjustments,
      taxGateProp, baseVilla, emptySHS, numOr, truthyNum]
  have hscore : riskScore taxGateProp
      (fmvAdjustments zeroDist taxGateProp none) = 30 := by
    rw [hadj]
    simp +decide [riskScore, taxGateProp, baseVilla]
    norm_num
  have hgrade : (calculateFairMarketValue zeroDist taxGateProp none
      none).risk_grade = RiskGrade.C := by
    show calculateRiskGrade taxGateProp
      (fmvAdjustments zeroDist taxGateProp none) = RiskGrade.C
    rw [calculateRiskGrade, hscore]
    norm_num [gradeOfScore]
  refine ⟨hscore, hgrade, ?_⟩
  intro h
  rw [hscore] at h
  exact absurd h.1 (by norm_num)

/-- C1 (amended): under the scenario's assumptions (tax gate failed, deadline
flag and VNA off, not verified, no seismic/structural/infrastructure
adjustments) the risk score computed inside `calculateFairMarketValue` is
exactly 30 — the flat 20 for the failed tax gate plus the 10-point absolute
magnitude of the −10% tax-gate value adjustment — and the resulting grade is
`C` (score 30 falls in the ≤ 35 bucket). -/
theorem taxGate_riskScore_amended :
    ∀ (dist : ℚ → ℚ → ℚ → ℚ → ℚ) (p : Property)
      (zi : Option ZoningCodeInfo),
      p.tax_gate_passed = false → p.bill_34_21_flagged = false →
      p.vna_required = false → p.is_verified = false →
      (calculateSeismicPenalty p).impact_percent = 0 →
      calculateStructuralAdjustments p = [] →
      riskScore p (fmvAdjustments dist p none) = 30 ∧
      (calculateFairMarketValue dist p zi none).risk_grade = RiskGrade.C := by
  intro dist p zi ht hb hv hver hseis hstr
  have hadj : fmvAdjustments dist p none =
      [{ factor := "tax_gate", impact_percent := -10
         impact_value := numOr p.market_price 0 * (-10/100) }] := by
    simp [fmvAdjustments, hseis, hstr, calculateComplianceAdjustments, hb, ht,
      hv]
  have hscore : riskScore p (fmvAdjustments dist p none) = 30 := by
    rw [hadj]
    simp [riskScore, ht, hb, hv, hver]
    norm_num
  refine ⟨hscore, ?_⟩
  show calculateRiskGrade p (fmvAdjustments dist p none) = RiskGrade.C
  rw [calculateRiskGrade, hscore]
  norm_num [gradeOfScore]

/-- C1 witness: the amended statement at the concrete tax-gate fixture. -/
theorem taxGate_riskScore_amended_witness :
    riskScore taxGateProp (fmvAdjustments zeroDist taxGateProp none) = 30 ∧
    (calculateFairMarketValue zeroDist taxGateProp none none).risk_grade =
      RiskGrade.C :=
  taxGate_riskScore_amended zeroDist taxGateProp none rfl rfl rfl rfl
    (by decide) (by decide)

/-- C4: `calculateZoningPotential` computes
`round((terrain × cos) × neighborhood price-per-m² × 0.70)` (the neighborhood
lookup defaulting to the 10,000 tier); with zoning code or terrain missing or
the code unrecognized, it returns the market price unchanged; and the
terrain 5,000 / cos 0.40 / default-tier scenario yields 14,000,000. -/
theorem zoningPotential_spec :
    (∀ (p : Property) (zi : Option ZoningCodeInfo) (z : ℚ × ℚ × ℕ),
      truthyNum p.terrain_size_m2 = true → truthyStr p.zoning_code = true →
      ZONING_MULTIPLIERS (p.zoning_code.getD "") = some z →
      calculateZoningPotential p zi =
        (jsRound (p.terrain_size_m2.getD 0 * z.1 *
          neighborhoodPricePerM2 p.neighborhood * (70/100)) : ℚ)) ∧
    (∀ (p : Property) (zi : Option ZoningCodeInfo) (m : ℚ),
      p.market_price = some m → m ≠ 0 →
      (truthyNum p.terrain_size_m2 = false ∨ truthyStr p.zoning_code = false ∨
        ZONING_MULTIPLIERS (p.zoning_code.getD "") = none) →
      calculateZoningPotential p zi = m) ∧
    calculateZoningPotential zoningLand = 14000000 := by
  refine ⟨?_, ?_, ?_⟩
  · intro p zi z ht hz hm
    simp [calculateZoningPotential, ht, hz, hm]
  · intro p zi m hm hm0 hcase
    have hmarket : numOr p.market_price 0 = m := by
      simp [numOr, truthyNum, hm, hm0]
    rcases hcase with h | h | h
    · simp [calculateZoningPotential, h, hmarket]
    · simp [calculateZoningPotential, h, hmarket]
    · by_cases ht : truthyNum p.terrain_size_m2 = true
      · by_cases hz : truthyStr p.zoning_code = true
        · simp [calculateZoningPotential, ht, hz, h, hmarket]
        · simp [calculateZoningPotential, hz, hmarket]
      · simp [calculateZoningPotential, ht, hmarket]
  · show calculateZoningPotential zoningLand none = 14000000
    simp +decide [calculateZoningPotential, zoningLand, baseVilla,
      ZONING_MULTIPLIERS, neighborhoodPricePerM2, NEIGHBORHOOD_TIERS, strOr,
      truthyStr, numOr, truthyNum, jsRound]
    norm_num [Int.floor_eq_iff]

/-- C4 witness: the fallback branch at a concrete property with a market
price and no zoning code. -/
theorem zoningPotential_spec_witness :
    calculateZoningPotential marketVilla none = 1000000 :=
  zoningPotential_spec.2.1 marketVilla none 1000000 rfl (by norm_num)
    (Or.inr (Or.inl (by decide)))

/-- C8: the VNA compliance adjustment carries a displayed −5 percent but an
absolute impact of −(200,000 + 2% of base); the deadline-flag and tax-gate
adjustments are pure −20% and −10% of base; and for a VNA-only property the
forensic value is the base minus the absolute VNA amount (floored at 0), not
base minus 5%. -/
theorem vna_absolute_penalty_spec :
    (∀ p : Property, p.vna_required = true →
      (calculateComplianceAdjustments p).filter
          (fun a => a.factor = "vna_requirement") =
        [{ factor := "vna_requirement", impact_percent := -5
           impact_value := -(200000 + numOr p.market_price 0 * (2/100)) }]) ∧
    (∀ p : Property,
      (calculateComplianceAdjustments p).filter
          (fun a => a.factor = "bill_34_21") =
        if p.bill_34_21_flagged then
          [{ factor := "bill_34_21", impact_percent := -20
             impact_value := numOr p.market_price 0 * (-20/100) }]
        else []) ∧
    (∀ p : Property,
      (calculateComplianceAdjustments p).filter
          (fun a => a.factor = "tax_gate") =
        if p.tax_gate_passed then []
        else
          [{ factor := "tax_gate", impact_percent := -10
             impact_value := numOr p.market_price 0 * (-10/100) }]) ∧
    (∀ (dist : ℚ → ℚ → ℚ → ℚ → ℚ) (p : Property)
      (zi : Option ZoningCodeInfo),
      p.vna_required = true → p.bill_34_21_flagged = false →
      p.tax_gate_passed = true → truthyNum p.market_price = true →
      (calculateSeismicPenalty p).impact_percent = 0 →
      calculateStructuralAdjustments p = [] →
      (calculateFairMarketValue dist p zi none).forensic_value =
        max (numOr p.market_price 0 -
          (200000 + numOr p.market_price 0 * (2/100))) 0) := by
  refine ⟨?_, ?_, ?_, ?_⟩
  · intro p hv
    cases hb : p.bill_34_21_flagged <;> cases ht : p.tax_gate_passed <;>
      simp +decide [calculateComplianceAdjustments, hv, hb, ht]
  · intro p
    cases hb : p.bill_34_21_flagged <;> cases ht : p.tax_gate_passed <;>
      cases hv : p.vna_required <;>
        simp +decide [calculateComplianceAdjustments, hb, ht, hv]
  · intro p
    cases hb : p.bill_34_21_flagged <;> cases ht : p.tax_gate_passed <;>
      cases hv : p.vna_required <;>
        simp +decide [calculateComplianceAdjustments, hb, ht, hv]
  · intro dist p zi hv hb ht hm hseis hstr
    have hadj : fmvAdjustments dist p none =
        [{ factor := "vna_requirement", impact_percent := -5
           impact_value := -(200000 + numOr p.market_price 0 * (2/100)) }] := by
      simp [fmvAdjustments, hseis, hstr, calculateComplianceAdjustments, hb,
        ht, hv]
    have hbase : numOr p.market_price (estimateBaseValue p) =
        numOr p.market_price 0 := by
      simp [numOr, hm]
    show max (numOr p.market_price (estimateBaseValue p) +
      ((fmvAdjustments dist p none).map (·.impact_value)).sum) 0 = _
    rw [hadj, hbase]
    simp
    ring_nf

/-- C8 witness: the VNA adjustment of the concrete VNA fixture. -/
theorem vna_absolute_penalty_spec_witness :
    (calculateComplianceAdjustments vnaVilla).filter
        (fun a => a.factor = "vna_requirement") =
      [{ factor := "vna_requirement", impact_percent := -5
         impact_value := -(200000 + numOr vnaVilla.market_price 0 *
           (2/100)) }] :=
  vna_absolute_penalty_spec.1 vnaVilla rfl

/-- C3: the audit's overall status is: `expired` iff some document's expiry
date is before `now` (for every property, so the pass is independent of asset
type); otherwise `non_compliant` on any critical flag, `pending_review` on
any warning flag, else `compliant`. -/
theorem audit_status_derivation :
    ∀ (now : ℤ) (p : Property) (documents : List ForensicDocument)
      (params : Option AuditParams),
      ((performComplianceAudit now p documents params).overall_status =
        (if documents.any (docExpired now) then ComplianceStatus.expired
         else if (auditFlagsPre now p documents params).any
             (fun f => f.severity = Severity.critical) then
           ComplianceStatus.non_compliant
         else if (auditFlagsPre now p documents params).any
             (fun f => f.severity = Severity.warning) then
           ComplianceStatus.pending_review
         else ComplianceStatus.compliant)) ∧
      ((performComplianceAudit now p documents params).overall_status =
          ComplianceStatus.expired ↔
        documents.any (docExpired now) = true) := by
  intro now p docs params
  have hstat : (performComplianceAudit now p docs params).overall_status =
      (if 0 < (docs.filter (docExpired now)).length then
        ComplianceStatus.expired
      else if 0 < ((auditFlagsPre now p docs params).filter
          (fun f => f.severity = Severity.critical)).length then
        ComplianceStatus.non_compliant
      else if 0 < ((auditFlagsPre now p docs params).filter
          (fun f => f.severity = Severity.warning)).length then
        ComplianceStatus.pending_review
      else ComplianceStatus.compliant) := rfl
  rw [hstat]
  simp only [filter_length_pos_iff]
  constructor
  · trivial
  · by_cases h : docs.any (docExpired now) = true
    · simp [h]
    · simp only [h, if_false]
      split_ifs <;> simp_all

/-- C9 counterexample: with identical property, documents and params, the
audit's result changes with the ambient clock (a document expiring at instant
100 makes the status `compliant` at instant 0 but `expired` at instant 200),
so the audit is not a function of only its property/documents/params
arguments. -/
theorem audit_clock_counterexample :
    (performComplianceAudit 0 baseVilla [expiringQuitus] none).overall_status =
      ComplianceStatus.compliant ∧
    (performComplianceAudit 200 baseVilla [expiringQuitus]
      none).overall_status = ComplianceStatus.expired ∧
    performComplianceAudit 0 baseVilla [expiringQuitus] none ≠
      performComplianceAudit 200 baseVilla [expiringQuitus] none := by
  refine ⟨by decide, by decide, ?_⟩
  intro h
  have := congrArg ComplianceResult.overall_status h
  revert this
  decide

/-- C9 (amended): every engine function is a deterministic total function of
its explicit inputs *plus the ambient clock instant*; the clock enters
`performComplianceAudit` only through the land-deadline check (when a
purchase date is supplied) and the document-expiry pass, so with no purchase
date and no document expiry dates the audit is clock-independent. -/
theorem audit_clock_amended :
    ∀ (now1 now2 : ℤ) (p : Property) (documents : List ForensicDocument)
      (params : Option AuditParams),
      params.bind (fun pr => pr.purchaseDate) = none →
      (∀ d ∈ documents, d.expiry_date = none) →
      performComplianceAudit now1 p documents params =
        performComplianceAudit now2 p documents params := by
  intro now1 now2 p docs params hpd hexp
  have hbill :
      validateBill3421 now1 p (params.bind (fun pr => pr.purchaseDate)) =
        validateBill3421 now2 p (params.bind (fun pr => pr.purchaseDate)) := by
    rw [hpd]
    rfl
  have hflt : ∀ n : ℤ, docs.filter (docExpired n) = [] := by
    intro n
    refine List.filter_eq_nil_iff.mpr ?_
    intro d hd
    simp [docExpired, hexp d hd]
  have hflags : auditFlagsPre now1 p docs params =
      auditFlagsPre now2 p docs params := by
    simp only [auditFlagsPre]
    rw [hbill]
  simp only [performComplianceAudit]
  rw [hbill, hflags, hflt now1, hflt now2]

/-- C9 witness: clock-invariance at a concrete audit with no purchase date
and no expiring documents. -/
theorem audit_clock_amended_witness :
    performComplianceAudit 0 baseVilla [cleanQuitus] none =
      performComplianceAudit 200 baseVilla [cleanQuitus] none :=
  audit_clock_amended 0 200 baseVilla [cleanQuitus] none rfl (by decide)

/-- C6: `findAlphaOpportunities` returns exactly the enrichments of the Land
properties with a (truthy) zoning code and market price whose computed alpha
percent is at least the threshold, sorted descending by alpha percent, and
never returns an entry below the threshold. -/
theorem alphaOpportunities_spec :
    ∀ (properties : List Property) (minAlphaPercent : ℚ)
      (q : AlphaOpportunity),
      (q ∈ findAlphaOpportunities properties minAlphaPercent ↔
        ∃ p ∈ properties,
          p.asset_type = AssetType.Land ∧ truthyStr p.zoning_code = true ∧
          truthyNum p.market_price = true ∧ q = alphaEnrich p ∧
          minAlphaPercent ≤ q.alpha_percent) ∧
      (findAlphaOpportunities properties minAlphaPercent).Pairwise
        (fun a b => b.alpha_percent ≤ a.alpha_percent) ∧
      (∀ r ∈ findAlphaOpportunities properties minAlphaPercent,
        minAlphaPercent ≤ r.alpha_percent) := by
  intro ps minA q
  refine ⟨?_, ?_, ?_⟩
  · rw [findAlphaOpportunities, List.mem_mergeSort, List.mem_filter,
      decide_eq_true_eq]
    simp only [List.mem_map, List.mem_filter, alphaEligible,
      Bool.and_eq_true, decide_eq_true_eq]
    constructor
    · rintro ⟨⟨p, ⟨hp, ⟨h1, h2⟩, h3⟩, rfl⟩, hge⟩
      exact ⟨p, hp, h1, h2, h3, rfl, hge⟩
    · rintro ⟨p, hp, h1, h2, h3, rfl, hge⟩
      exact ⟨⟨p, ⟨hp, ⟨h1, h2⟩, h3⟩, rfl⟩, hge⟩
  · rw [findAlphaOpportunities]
    refine List.Pairwise.imp ?_ (List.sorted_mergeSort ?_ ?_ _)
    · intro a b h
      exact of_decide_eq_true h
    · intro a b c hab hbc
      rw [decide_eq_true_eq] at hab hbc ⊢
      exact le_trans hbc hab
    · intro a b
      rcases le_total b.alpha_percent a.alpha_percent with h | h
      · simp [h]
      · simp [h]
  · intro r hr
    rw [findAlphaOpportunities, List.mem_mergeSort, List.mem_filter] at hr
    exact of_decide_eq_true hr.2

/-- C6 witness: the zoning-scenario land parcel (alpha percent 1300 ≥ 20) is
returned for the default threshold 20. -/
theorem alphaOpportunities_spec_witness :
    alphaEnrich zoningLand ∈ findAlphaOpportunities [zoningLand] 20 :=
  (alphaOpportunities_spec [zoningLand] 20 (alphaEnrich zoningLand)).1.mpr
    ⟨zoningLand, by decide, rfl, by decide, by decide, rfl, by
      rw [alphaEnrich_zoningLand_percent]; norm_num⟩

/-- C5: the infrastructure bonus sums, over exactly the points within their
impact radius (Haversine distance), the bonus
`(multiplier − 1) × (1 − distance/radius) × categoryWeight`; the absolute
impact is base × total; and the distance-0 / radius-5 / multiplier-1.25 /
weight-0.30 scenario yields bonus 0.075 (7.5%). -/
theorem infrastructureBonus_spec :
    (∀ (p : Property) (points : List InfrastructurePoint),
      infraTotalBonusH p points =
        ((points.filter (infraQualifiesH p)).map (infraPointBonusH p)).sum ∧
      (calculateInfrastructureBonusH p points).impact_value =
        ((numOr p.market_price 0 : ℚ) : ℝ) * infraTotalBonusH p points ∧
      (calculateInfrastructureBonusH p points).impact_percent =
        ((jsRoundR (infraTotalBonusH p points * 100 * 100) : ℤ) : ℝ) / 100) ∧
    (infraTotalBonusH marketVilla [tgvAtOrigin] = 3/40 ∧
      (calculateInfrastructureBonusH marketVilla [tgvAtOrigin]).impact_percent
        = 15/2 ∧
      (calculateInfrastructureBonusH marketVilla [tgvAtOrigin]).impact_value
        = 75000) := by
  have haux : ∀ (p : Property) (points : List InfrastructurePoint)
      (init : ℝ),
      points.foldl (fun acc pt =>
        acc + (if infraQualifiesH p pt then infraPointBonusH p pt else 0)) init
        = init +
          ((points.filter (infraQualifiesH p)).map (infraPointBonusH p)).sum := by
    intro p points
    induction points with
    | nil => intro init; simp
    | cons a t ih =>
      intro init
      cases h : infraQualifiesH p a <;>
        simp [List.filter_cons, h, ih, add_assoc]
  have hdist : infraDistance marketVilla tgvAtOrigin = 0 := by
    simp [infraDistance, marketVilla, baseVilla, tgvAtOrigin,
      calculateDistance_self_zero]
  have hqual : infraQualifiesH marketVilla tgvAtOrigin = true := by
    rw [infraQualifiesH, hdist]
    simp only [Bool.and_eq_true, decide_eq_true_eq]
    refine ⟨by decide, ?_⟩
    norm_num [tgvAtOrigin]
  have hbonus : infraPointBonusH marketVilla tgvAtOrigin = 3/40 := by
    rw [infraPointBonusH, hdist]
    norm_num [tgvAtOrigin, numOr, truthyNum, weightOf, INFRASTRUCTURE_WEIGHTS,
      decide_eq_true_eq]
  have htotal : infraTotalBonusH marketVilla [tgvAtOrigin] = 3/40 := by
    simp [infraTotalBonusH, hqual, hbonus]
  have hround : jsRoundR ((3/40 : ℝ) * 100 * 100) = 750 := by
    rw [jsRoundR, Int.floor_eq_iff]
    constructor <;> norm_num
  refine ⟨?_, htotal, ?_, ?_⟩
  · intro p points
    refine ⟨?_, rfl, rfl⟩
    rw [infraTotalBonusH, haux, zero_add]
  · show ((jsRoundR (infraTotalBonusH marketVilla [tgvAtOrigin] * 100 * 100) :
      ℤ) : ℝ) / 100 = 15/2
    rw [htotal, hround]
    norm_num
  · show ((numOr marketVilla.market_price 0 : ℚ) : ℝ) *
      infraTotalBonusH marketVilla [tgvAtOrigin] = 75000
    rw [htotal]
    norm_num [marketVilla, baseVilla, numOr, truthyNum, decide_eq_true_eq]

end Tifort
